import Mathlib

/- Verification development for the Webster.Shivaji event-registration site.
   The definitions below are shallow embeddings of:
   - the registration-token gate of src/middleware.js,
   - the team-registration form of src/app/techelonsregistration/page.js,
   - the confirmation e-mail service (template cache and dispatch).
   JavaScript-level semantics (base64 decoding, `split`, `parseInt`,
   truthiness, global string replacement) are modelled by the helper
   functions of the first section. -/

/-- JavaScript `x || d` for an optional string: `null`/`undefined` and the
empty string are falsy and select the default `d`. -/
def jsOr (x : Option String) (d : String) : String :=
  match x with
  | none => d
  | some s => if s = "" then d else s

/-- JavaScript truthiness of an optional string value. -/
def jsTruthyStr (x : Option String) : Bool :=
  match x with
  | none => false
  | some s => s ≠ ""

/-- The base64 alphabet; the character at index `i` is the digit of value `i`. -/
def base64Alphabet : List Char :=
  "ABCDEFGHIJKLMNOPQRSTUVWXYZabcdefghijklmnopqrstuvwxyz0123456789+/".data

/-- The base64 digit of a 6-bit value. -/
def b64Digit (n : Nat) : Char := (base64Alphabet.get? n).getD 'A'

/-- Base64-encode a byte list (RFC 4648, with `'='` padding). -/
def b64EncodeBytes : List Nat → List Char
  | [] => []
  | [b1] =>
    [b64Digit (b1 / 4), b64Digit (b1 % 4 * 16), '=', '=']
  | [b1, b2] =>
    [b64Digit (b1 / 4), b64Digit (b1 % 4 * 16 + b2 / 16), b64Digit (b2 % 16 * 4), '=']
  | b1 :: b2 :: b3 :: rest =>
    b64Digit (b1 / 4) :: b64Digit (b1 % 4 * 16 + b2 / 16) ::
      b64Digit (b2 % 16 * 4 + b3 / 64) :: b64Digit (b3 % 64) :: b64EncodeBytes rest

/-- `base64(s)`: encode the bytes of `s` (the token payloads under study are
ASCII, where code points and bytes coincide). -/
def b64encode (s : String) : String :=
  String.mk (b64EncodeBytes (s.data.map Char.toNat))

/-- Value of a base64 digit; `none` for `'='` and any non-alphabet character. -/
def b64Val (c : Char) : Option Nat :=
  base64Alphabet.findIdx? (fun d => d = c)

/-- Reassemble bytes from a list of 6-bit values (a truncated tail is
tolerated, as in Node's forgiving decoder). -/
def b64DecodeVals : List Nat → List Nat
  | s1 :: s2 :: s3 :: s4 :: rest =>
    (s1 * 4 + s2 / 16) :: (s2 % 16 * 16 + s3 / 4) :: (s3 % 4 * 64 + s4) :: b64DecodeVals rest
  | [s1, s2, s3] => [s1 * 4 + s2 / 16, s2 % 16 * 16 + s3 / 4]
  | [s1, s2] => [s1 * 4 + s2 / 16]
  | _ => []

/-- Model of `Buffer.from(t, 'base64').toString()` (src/middleware.js line 17):
Node's forgiving decoder skips characters outside the alphabet (including
padding) and never throws; the byte-to-text step is exact for the ASCII
outputs exercised here. -/
def b64decode (t : String) : String :=
  String.mk ((b64DecodeVals (t.data.filterMap b64Val)).map Char.ofNat)

/-- JavaScript `String.prototype.split(sep)` for a one-character separator. -/
def splitOnChar (sep : Char) : List Char → List (List Char)
  | [] => [[]]
  | c :: rest =>
    match splitOnChar sep rest with
    | [] => [[]]
    | h :: t => if c = sep then [] :: h :: t else (c :: h) :: t

/-- JavaScript whitespace skipped by `parseInt`. -/
def isJsSpace (c : Char) : Bool :=
  c == ' ' || c == '\t' || c == '\n' || c == '\r'

/-- Accumulate decimal digits into a natural number. -/
def digitsToNatAux (acc : Nat) : List Char → Nat
  | [] => acc
  | c :: rest => digitsToNatAux (acc * 10 + (c.toNat - '0'.toNat)) rest

/-- JavaScript `parseInt(s, 10)`: skip leading whitespace, read an optional
sign, then the leading run of decimal digits; `NaN` (modelled as `none`) when
no digit is read.  Trailing non-digit characters are ignored, as in JS. -/
def parseIntJS (cs : List Char) : Option Int :=
  let cs := cs.dropWhile isJsSpace
  match cs with
  | '-' :: rest =>
    let ds := rest.takeWhile Char.isDigit
    if ds.isEmpty then none else some (-(digitsToNatAux 0 ds : Int))
  | '+' :: rest =>
    let ds := rest.takeWhile Char.isDigit
    if ds.isEmpty then none else some ((digitsToNatAux 0 ds : Int))
  | other =>
    let ds := other.takeWhile Char.isDigit
    if ds.isEmpty then none else some ((digitsToNatAux 0 ds : Int))

/-- JavaScript `s.replace(/pat/g, rep)` over the character list, for a literal
nonempty pattern and a plain replacement (no `$`-sequences involved).  The
fuel argument only drives structural recursion; with `fuel ≥ cs.length` and a
nonempty pattern it is never exhausted, since every step consumes at least one
character. -/
def replaceAllAux (pat rep : List Char) : Nat → List Char → List Char
  | _, [] => []
  | 0, cs => cs
  | fuel + 1, c :: rest =>
    if pat ≠ [] ∧ pat.isPrefixOf (c :: rest) then
      rep ++ replaceAllAux pat rep fuel ((c :: rest).drop pat.length)
    else
      c :: replaceAllAux pat rep fuel rest

/-- JavaScript global string replacement, lifted to `String`. -/
def jsReplaceAll (s pat rep : String) : String :=
  String.mk (replaceAllAux pat.data rep.data s.data.length s.data)

/- ### The registration-token gate (src/middleware.js) -/

/-- Character class `[a-zA-Z0-9._%+-]` (local part after its first character). -/
def isLocalChar (c : Char) : Bool :=
  c.isAlphanum || c == '.' || c == '_' || c == '%' || c == '+' || c == '-'

/-- Character class `[a-zA-Z0-9.-]` (general domain alternative). -/
def isDomChar (c : Char) : Bool :=
  c.isAlphanum || c == '.' || c == '-'

/-- Local part `[a-zA-Z0-9][a-zA-Z0-9._%+-]*`. -/
def localPartMatch : List Char → Bool
  | [] => false
  | c :: rest => c.isAlphanum && rest.all isLocalChar

/-- General domain alternative `[a-zA-Z0-9.-]+\.[a-zA-Z]{2,}`: some dot splits
the domain into a nonempty run of domain characters and a trailing run of at
least two letters. -/
def genDomainMatch (d : List Char) : Bool :=
  (List.range d.length).any fun i =>
    d.get? i == some '.' &&
      !(d.take i).isEmpty && (d.take i).all isDomChar &&
      decide (2 ≤ (d.drop (i + 1)).length) && (d.drop (i + 1)).all Char.isAlpha

/-- The fixed academic-domain alternatives of the middleware regex. -/
def allowedDomains : List String :=
  ["du.ac.in", "ipu.ac.in", "ignou.ac.in", "jnu.ac.in", "iitd.ac.in", "nsut.ac.in",
   "dtu.ac.in", "igdtuw.ac.in", "aud.ac.in", "jamiahamdard.edu", "bhu.ac.in",
   "bvpindia.com", "mait.ac.in", "ip.edu", "msit.in", "gbpuat.ac.in"]

/-- Domain group of the regex: the general pattern or a fixed allow-list entry. -/
def domainMatch (d : List Char) : Bool :=
  genDomainMatch d || allowedDomains.any (fun a => a.data == d)

/-- The anchored e-mail pattern of src/middleware.js line 20, applied to the
whole decoded token.  The pattern is `^local@(domaingroup)$`; since no
character class of the pattern contains `'@'`, a match splits the string at
one of its `'@'` occurrences. -/
def emailRegexTest (s : String) : Bool :=
  (List.range s.data.length).any fun i =>
    s.data.get? i == some '@' && localPartMatch (s.data.take i) &&
      domainMatch (s.data.drop (i + 1))

/-- Lines 28-38 of src/middleware.js: given a decoded token containing `'|'`,
destructure `[email, timestamp] = decodedToken.split('|')`, run
`parseInt(timestamp, 10)` and redirect when the result is `NaN` or the token
is older than 24 hours (`currentTime - tokenTime > 24 * 60 * 60 * 1000`). -/
def tokenExpiryRedirect (now : Int) (decodedToken : String) : Bool :=
  let parts := splitOnChar '|' decodedToken.data
  let tsChars := (parts.get? 1).getD []
  match parseIntJS tsChars with
  | none => true
  | some tokenTime => decide (now - tokenTime > 24 * 60 * 60 * 1000)

/-- A request as seen by the middleware: its pathname and its `token` query
parameter (`none` when absent). -/
structure GateRequest where
  pathname : String
  token : Option String
deriving DecidableEq

/-- Outcome of the gate: a redirect to `/` (on the request's origin) or
`NextResponse.next()`. -/
inductive GateResult
  | redirectHome
  | next
deriving DecidableEq

/-- The two protected pathnames of src/middleware.js line 5 (also the
`config.matcher` entries of lines 49-51). -/
def isProtectedPath (p : String) : Bool :=
  p == "/formsubmitted/workshop" || p == "/formsubmitted/techelons"

/-- The middleware of src/middleware.js.  `Buffer.from(token, 'base64')` never
throws, so the `try`/`catch` contributes no extra branch; `if (!token)` also
treats an empty `token` parameter as absent. -/
def middleware (now : Int) (req : GateRequest) : GateResult :=
  if isProtectedPath req.pathname then
    match req.token with
    | none => .redirectHome
    | some token =>
      if token = "" then .redirectHome
      else
        let decodedToken := b64decode token
        if !emailRegexTest decodedToken then .redirectHome
        else if decodedToken.data.contains '|' then
          if tokenExpiryRedirect now decodedToken then .redirectHome else .next
        else .next
  else .next

/- ### The team-registration form (src/app/techelonsregistration/page.js) -/

/-- An event's `teamSize` bounds (from the external event catalog). -/
structure TeamBounds where
  min : Int
  max : Int
deriving DecidableEq

/-- Event-selection effect on the member count (page.js lines 103-109,
112-145 and 148-169): `setTeamSize(Math.max(1, event.teamSize.min - 1))`. -/
def selectTeamSize (b : TeamBounds) : Int := max 1 (b.min - 1)

/-- `handleAddMember` (page.js lines 190-198):
`Math.min(requiredTeamSize.max - 1, teamSize + 1)`. -/
def handleAddMember (b : TeamBounds) (teamSize : Int) : Int :=
  min (b.max - 1) (teamSize + 1)

/-- `handleRemoveMember` (page.js lines 171-188):
`Math.max(requiredTeamSize.min - 1, teamSize - 1)`. -/
def handleRemoveMember (b : TeamBounds) (teamSize : Int) : Int :=
  max (b.min - 1) (teamSize - 1)

/-- An add/remove interaction on the team-member counter. -/
inductive TeamOp
  | add
  | remove
deriving DecidableEq

/-- Apply one add/remove transition. -/
def applyTeamOp (b : TeamBounds) (teamSize : Int) : TeamOp → Int
  | .add => handleAddMember b teamSize
  | .remove => handleRemoveMember b teamSize

/-- The member count reached from event selection by a sequence of add/remove
interactions. -/
def runTeamOps (b : TeamBounds) (ops : List TeamOp) : Int :=
  ops.foldl (applyTeamOp b) (selectTeamSize b)

/-- Character class `[A-Za-z0-9_'+\-\.]` of the zod v3 e-mail local part. -/
def zodLocalAnyChar (c : Char) : Bool :=
  c.isAlphanum || c == '_' || c == '\x27' || c == '+' || c == '-' || c == '.'

/-- Final local-part character class `[A-Za-z0-9_+\-]`. -/
def zodLocalLastChar (c : Char) : Bool :=
  c.isAlphanum || c == '_' || c == '+' || c == '-'

/-- Local part `([A-Za-z0-9_'+\-\.]*)[A-Za-z0-9_+\-]`: nonempty, over the
class, not ending in a dot or quote. -/
def zodLocalMatch (l : List Char) : Bool :=
  match l.getLast? with
  | none => false
  | some c => zodLocalLastChar c && l.all zodLocalAnyChar

/-- A domain label `[A-Za-z0-9][A-Za-z0-9\-]*`. -/
def zodLabelOk (l : List Char) : Bool :=
  match l with
  | [] => false
  | c :: rest => c.isAlphanum && rest.all (fun d => d.isAlphanum || d == '-')

/-- The trailing `[A-Za-z]{2,}` of the domain. -/
def zodTldOk (l : List Char) : Bool :=
  decide (2 ≤ l.length) && l.all Char.isAlpha

/-- Domain `([A-Za-z0-9][A-Za-z0-9\-]*\.)+[A-Za-z]{2,}`: since labels contain
no dot, a match is exactly a dot-split into one or more labels and a TLD. -/
def zodDomainMatch (d : List Char) : Bool :=
  let segs := splitOnChar '.' d
  decide (2 ≤ segs.length) && segs.dropLast.all zodLabelOk &&
    zodTldOk (segs.getLast?.getD [])

/-- Two consecutive dots somewhere in the string (the `(?!.*\.\.)` lookahead). -/
def hasDoubleDot : List Char → Bool
  | '.' :: '.' :: _ => true
  | _ :: rest => hasDoubleDot rest
  | [] => false

/-- `z.string().email()` of zod v3, the library resolving the form schema:
`^(?!\.)(?!.*\.\.)([A-Za-z0-9_'+\-\.]*)[A-Za-z0-9_+\-]@([A-Za-z0-9][A-Za-z0-9\-]*\.)+[A-Za-z]{2,}$`.
No character class contains `'@'`, so a match splits the string at an `'@'`. -/
def zodEmailTest (s : String) : Bool :=
  let cs := s.data
  !hasDoubleDot cs && cs.head? != some '.' &&
    ((List.range cs.length).any fun i =>
      cs.get? i == some '@' && zodLocalMatch (cs.take i) &&
        zodDomainMatch (cs.drop (i + 1)))

/-- Modelled from the spec: `MAX_FILE_SIZE` is imported from
src/app/_utils/fileUtils.js, which is not among the sources; spec section 4.1
(and the commented-out constant of page.js line 19) give 5 MB. -/
def MAX_FILE_SIZE : Int := 5 * 1024 * 1024

/-- Modelled from the spec: accepted MIME types per spec section 4.1 and the
commented-out constant of page.js line 20. -/
def ACCEPTED_FILE_TYPES : List String :=
  ["image/jpeg", "image/jpg", "image/png", "application/pdf"]

/-- The data of one uploaded file (`size` and MIME `type`). -/
structure FileData where
  size : Int
  mimeType : String
deriving DecidableEq

/-- Modelled from the spec: `validateFile` of fileUtils.js (not among the
sources) succeeds exactly on files within the size and type bounds. -/
def validateFileOk (f : FileData) : Bool :=
  decide (f.size ≤ MAX_FILE_SIZE) && ACCEPTED_FILE_TYPES.contains f.mimeType

/-- `fileSchema` (page.js lines 23-29): the `FileList` must be nonempty and
its first file within the size and type bounds; `none` models a missing or
empty list. -/
def fileSchemaOk (file : Option FileData) : Bool :=
  match file with
  | none => false
  | some f => decide (f.size ≤ MAX_FILE_SIZE) && ACCEPTED_FILE_TYPES.contains f.mimeType

/-- `nameSchema` (page.js line 31): `z.string().min(2).max(50)`. -/
def nameSchemaOk (s : String) : Bool :=
  decide (2 ≤ s.length) && decide (s.length ≤ 50)

/-- `phoneSchema` (page.js lines 33-35): `.length(10)` and `^[6-9]\d{9}$`. -/
def phoneSchemaOk (s : String) : Bool :=
  decide (s.length = 10) &&
    (match s.data with
     | c :: rest =>
       decide ('6' ≤ c) && decide (c ≤ '9') && decide (rest.length = 9) &&
         rest.all Char.isDigit
     | [] => false)

/-- `rollNoSchema` (page.js line 36): `z.string().min(2).max(20)`. -/
def rollNoSchemaOk (s : String) : Bool :=
  decide (2 ≤ s.length) && decide (s.length ≤ 20)

/-- `collegeSelectSchema` (page.js line 37): the two enum values. -/
def collegeSelectOk (s : String) : Bool :=
  s == "Shivaji College" || s == "Other"

/-- `otherCollegeSchema` (page.js lines 38-42):
`z.string().min(2).max(100).optional().nullable()` — an absent (`undefined`
or `null`, modelled `none`) value passes unconditionally. -/
def otherCollegeSchemaOk : Option String → Bool
  | none => true
  | some s => decide (2 ≤ s.length) && decide (s.length ≤ 100)

/-- One person record of the form (registrant or team member). -/
structure PersonData where
  name : String
  email : String
  phone : String
  rollNo : String
  college : String
  otherCollege : Option String
  collegeId : Option FileData
deriving DecidableEq

/-- `personSchema` (page.js lines 45-53), shared by registrant and team
members (`teamMemberSchema` of line 56 is the same schema). -/
def personSchemaOk (p : PersonData) : Bool :=
  nameSchemaOk p.name && zodEmailTest p.email && phoneSchemaOk p.phone &&
    rollNoSchemaOk p.rollNo && collegeSelectOk p.college &&
    otherCollegeSchemaOk p.otherCollege && fileSchemaOk p.collegeId

/-- `z.enum(["1st Year", "2nd Year", "3rd Year"])` (page.js line 62). -/
def yearOk (s : String) : Bool :=
  ["1st Year", "2nd Year", "3rd Year"].contains s

/-- `query: z.string().max(500).optional().nullable()` (page.js line 63). -/
def querySchemaOk : Option String → Bool
  | none => true
  | some s => decide (s.length ≤ 500)

/-- The submitted form values: the registrant's person fields (flat in the JS
data object, grouped here), the event/course/year fields, the optional query
and the optional team-member array. -/
structure TechFormData where
  registrant : PersonData
  event : String
  course : String
  year : String
  query : Option String
  teamMembers : Option (List PersonData)
deriving DecidableEq

/-- The non-team fields of `baseFormSchema` (page.js lines 59-65). -/
def mainFieldsOk (d : TechFormData) : Bool :=
  personSchemaOk d.registrant && decide (1 ≤ d.event.length) &&
    decide (2 ≤ d.course.length) && decide (d.course.length ≤ 50) &&
    yearOk d.year && querySchemaOk d.query

/-- `baseFormSchema` (page.js lines 59-65): team members are
`z.array(teamMemberSchema).optional()` — any array, including the empty one,
passes as long as each present member satisfies the person schema. -/
def baseFormSchemaOk (d : TechFormData) : Bool :=
  mainFieldsOk d &&
    (match d.teamMembers with
     | none => true
     | some ms => ms.all personSchemaOk)

/-- The team-member array refinement getFormSchema's text builds
(`.array().min(teamSize.min - 1).max(teamSize.max - 1)`, page.js lines 84-86). -/
def teamArrayBoundsOk (b : TeamBounds) (ms : List PersonData) : Bool :=
  decide (b.min - 1 ≤ (ms.length : Int)) && decide ((ms.length : Int) ≤ b.max - 1) &&
    ms.all personSchemaOk

/-- The object `getFormSchema` returns (page.js lines 81-89).  In zod v3 every
`ZodType` binds `parse`/`safeParse`/`safeParseAsync` to itself in its
constructor, as own properties; so `const schema = \x7b ...baseFormSchema \x7d`
copies validators bound to `baseFormSchema`, and the subsequent
`schema.teamMembers = teamMemberSchema.array().min(...).max(...)` assignment
only sets a plain object property that no copied validator consults.  The
model keeps both: the validator the resolver will call (`boundValidate`) and
the inert assigned property (`teamMembersOverride`). -/
structure JsFormSchema where
  boundValidate : TechFormData → Bool
  teamMembersOverride : Option (List PersonData → Bool)

/-- `getFormSchema` (page.js lines 81-89). -/
def getFormSchema (selectedEvent : Option TeamBounds) : JsFormSchema :=
  { boundValidate := baseFormSchemaOk
    teamMembersOverride :=
      match selectedEvent with
      | some b => if 1 < b.max then some (teamArrayBoundsOk b) else none
      | none => none }

/-- `zodResolver(getFormSchema())` invokes the schema object's (bound)
`safeParseAsync`. -/
def resolverValidate (s : JsFormSchema) (d : TechFormData) : Bool :=
  s.boundValidate d

/-- The form schema the source text of `getFormSchema` visibly tries to build
(base schema with the team-member array bounds required once the selected
event's `teamSize.max` exceeds 1); stated for comparison with the schema the
resolver actually runs. -/
def intendedFormSchemaOk (selectedEvent : Option TeamBounds) (d : TechFormData) : Bool :=
  match selectedEvent with
  | some b =>
    if 1 < b.max then
      mainFieldsOk d &&
        (match d.teamMembers with
         | none => false
         | some ms => teamArrayBoundsOk b ms)
    else baseFormSchemaOk d
  | none => baseFormSchemaOk d

/-- `validateFiles` (page.js lines 201-224): throws — aborting before the
fetch — when a present college-ID file fails `validateFile`; absent files are
skipped there.  `false` models a throw. -/
def validateFilesOk (d : TechFormData) : Bool :=
  (match d.registrant.collegeId with
   | some f => validateFileOk f
   | none => true) &&
    (match d.teamMembers with
     | none => true
     | some ms => ms.all fun m =>
         match m.collegeId with
         | some f => validateFileOk f
         | none => true)

/-- A multipart field name.  On the wire `main n` is the literal name `n`,
`teamMember i` is `teamMember_<i>` and `teamMemberCollegeId i` is
`teamMember_<i>_collegeId`; the encoding is injective because no main field
name of page.js starts with `teamMember_`. -/
inductive FieldKey
  | main (name : String)
  | teamMember (i : Nat)
  | teamMemberCollegeId (i : Nat)
deriving DecidableEq

/-- The six properties of the object literal passed to `JSON.stringify` for a
team member (page.js lines 236-243); `none` models an omitted `undefined`
property. -/
structure MemberJson where
  name : String
  email : String
  phone : String
  rollNo : String
  college : String
  otherCollege : Option String
deriving DecidableEq

/-- Build the JSON payload of one team member. -/
def serializeMember (m : PersonData) : MemberJson :=
  { name := m.name, email := m.email, phone := m.phone, rollNo := m.rollNo,
    college := m.college, otherCollege := m.otherCollege }

/-- A multipart field value: a plain string, a file part, or the JSON-encoded
member object. -/
inductive FieldValue
  | str (s : String)
  | file (f : FileData)
  | memberJson (m : MemberJson)
deriving DecidableEq

/-- `FormData.append` coerces `undefined` to the string "undefined". -/
def jsFieldStr : Option String → String
  | some s => s
  | none => "undefined"

/-- The `slice(0, teamSize).forEach((member, index) => ...)` loop of
prepareFormData (page.js lines 235-248): for each member one JSON field
`teamMember_<index>`, plus a file field `teamMember_<index>_collegeId` when
the member's college ID is present. -/
def appendTeamEntries : Nat → List PersonData → List (FieldKey × FieldValue)
  | _, [] => []
  | i, m :: rest =>
    ((.teamMember i, .memberJson (serializeMember m)) ::
        (match m.collegeId with
         | some f => [(.teamMemberCollegeId i, .file f)]
         | none => [])) ++ appendTeamEntries (i + 1) rest

/-- The non-team appends of `prepareFormData` (page.js lines 231-233 and
249-251), in the structure's field order (the claims are order-insensitive):
each remaining key is appended as a string, except `collegeId`, which appends
the file when present (with no file the plain `else` branch would stringify
the empty `FileList`). -/
def mainEntries (d : TechFormData) : List (FieldKey × FieldValue) :=
  [(.main "name", .str d.registrant.name),
   (.main "email", .str d.registrant.email),
   (.main "phone", .str d.registrant.phone),
   (.main "rollNo", .str d.registrant.rollNo),
   (.main "college", .str d.registrant.college),
   (.main "otherCollege", .str (jsFieldStr d.registrant.otherCollege))] ++
    (match d.registrant.collegeId with
     | some f => [(.main "collegeId", .file f)]
     | none => [(.main "collegeId", .str "[object FileList]")]) ++
    [(.main "event", .str d.event),
     (.main "course", .str d.course),
     (.main "year", .str d.year),
     (.main "query", .str (jsFieldStr d.query))]

/-- `prepareFormData` (page.js lines 227-255): the non-team fields plus the
`teamMembers` key, which appends `slice(0, teamSize)` as per-index parts; an
absent `teamMembers` key contributes nothing. -/
def prepareFormData (teamSize : Nat) (d : TechFormData) : List (FieldKey × FieldValue) :=
  mainEntries d ++
    (match d.teamMembers with
     | none => []
     | some ms => appendTeamEntries 0 (ms.take teamSize))

/-- First binding of a field name in the multipart payload. -/
def lookupField (k : FieldKey) : List (FieldKey × FieldValue) → Option FieldValue
  | [] => none
  | (k', v) :: rest => if k' = k then some v else lookupField k rest

/-- The submission path: `handleSubmit(onSubmit, showFieldErrorToasts)` routes
resolver-invalid data to the error callback, so `onSubmit` (page.js lines
257-343) never runs on it; inside `onSubmit` a `validateFiles` throw is caught
before the fetch.  The result is `some payload` exactly when the
`fetch('/api/techelonsregistration')` call is issued, carrying the prepared
multipart body. -/
def submitPipeline (selectedEvent : Option TeamBounds) (teamSize : Nat)
    (d : TechFormData) : Option (List (FieldKey × FieldValue)) :=
  if resolverValidate (getFormSchema selectedEvent) d then
    if validateFilesOk d then some (prepareFormData teamSize d) else none
  else none

/-- Registrant form state touched by the college select handler. -/
structure CollegeFields where
  college : String
  otherCollege : Option String
deriving DecidableEq

/-- The registrant college `Select` handler (page.js lines 563-576): set
`college`; when the choice is "Shivaji College", `setValue('otherCollege',
'')` followed by `unregister('otherCollege')` removes the field from the
submitted values (modelled as `none`). -/
def onCollegeChange (st : CollegeFields) (value : String) : CollegeFields :=
  if value = "Shivaji College" then
    { college := value, otherCollege := none }
  else
    { st with college := value }

/- ### The confirmation e-mail service (unnamed source part_002) -/

/-- One prize entry of an event catalog record. -/
structure Prize where
  position : String
  reward : String
deriving DecidableEq

/-- One coordinator entry of an event catalog record. -/
structure Coordinator where
  name : String
  email : Option String
  phone : Option String
deriving DecidableEq

/-- The value `formatEventDateTime` returns. -/
structure DateTimeParts where
  formattedDate : String
  formattedTime : String
  dayOfWeek : String
deriving DecidableEq

/-- The event-details object handed to the template generator: a catalog
record, possibly with the date/time/venue overridden by the caller
(part_002 lines 459-464). -/
structure EventDetails where
  id : String
  name : String
  category : Option String
  teamSize : Option TeamBounds
  festDay : Option String
  date : Option String
  time : Option String
  venue : Option String
  prizes : Option (List Prize)
  rules : Option (List String)
  coordinators : Option (List Coordinator)
  instructions : Option String
  resources : Option String
  description : Option String
deriving DecidableEq

/-- `s.charAt(0).toUpperCase() + s.slice(1)`. -/
def jsCapitalize (s : String) : String :=
  match s.data with
  | [] => ""
  | c :: rest => String.mk (c.toUpper :: rest)

/-- One `<li>` of the prizes block (part_002 line 198). -/
def prizeItemHTML (p : Prize) : String :=
  "<li style=\"margin-bottom: 10px;\"><span style=\"font-weight: 600; color: #10b981;\">" ++
    p.position ++ ":</span> " ++ p.reward ++ "</li>"

/-- The prizes block (part_002 lines 192-203); empty unless a nonempty array. -/
def prizesHTML (ed : EventDetails) : String :=
  match ed.prizes with
  | some (p :: ps) =>
    "<div style=\"background-color: #ffffff; padding: 24px; border-radius: 12px; margin: 20px 0; box-shadow: 0 2px 8px rgba(0, 0, 0, 0.05); border-left: 4px solid #10b981;\">" ++
      "<h3 style=\"margin-top: 0; color: #111827; font-size: 18px; font-weight: 600;\">🏆 Prizes</h3>" ++
      "<ul style=\"margin: 16px 0 0; padding-left: 20px; color: #374151;\">" ++
      String.join ((p :: ps).map prizeItemHTML) ++ "</ul></div>"
  | _ => ""

/-- One `<li>` of the rules block (part_002 line 212). -/
def ruleItemHTML (r : String) : String :=
  "<li style=\"margin-bottom: 10px;\">" ++ r ++ "</li>"

/-- The rules block (part_002 lines 206-217). -/
def rulesHTML (ed : EventDetails) : String :=
  match ed.rules with
  | some (r :: rs) =>
    "<div style=\"background-color: #ffffff; padding: 24px; border-radius: 12px; margin: 20px 0; box-shadow: 0 2px 8px rgba(0, 0, 0, 0.05); border-left: 4px solid #ef4444;\">" ++
      "<h3 style=\"margin-top: 0; color: #111827; font-size: 18px; font-weight: 600;\">📋 Event Rules</h3>" ++
      "<ul style=\"margin: 16px 0 0; padding-left: 20px; color: #374151;\">" ++
      String.join ((r :: rs).map ruleItemHTML) ++ "</ul></div>"
  | _ => ""

/-- One coordinator card (part_002 lines 226-235). -/
def coordinatorItemHTML (c : Coordinator) : String :=
  "<div style=\"margin-bottom: 16px; display: flex; align-items: center;\">" ++
    "<div style=\"background-color: #f3f4f6; border-radius: 50%; width: 40px; height: 40px; display: flex; align-items: center; justify-content: center; margin-right: 12px; flex-shrink: 0;\">" ++
    "<span style=\"font-weight: bold; color: #3b82f6;\">" ++ c.name.take 1 ++ "</span></div><div>" ++
    "<p style=\"margin: 0; font-weight: 600; color: #111827;\">" ++ c.name ++ "</p>" ++
    (match c.email with
     | some e => "<p style=\"margin: 4px 0 0;\">📧 <a href=\"mailto:" ++ e ++ "\" style=\"color: #4f46e5; text-decoration: none;\">" ++ e ++ "</a></p>"
     | none => "") ++
    (match c.phone with
     | some ph => "<p style=\"margin: 4px 0 0;\">📱 <a href=\"tel:" ++ ph ++ "\" style=\"color: #4f46e5; text-decoration: none;\">" ++ ph ++ "</a></p>"
     | none => "") ++
    "</div></div>"

/-- The coordinators block (part_002 lines 220-240). -/
def coordinatorsHTML (ed : EventDetails) : String :=
  match ed.coordinators with
  | some (c :: cs) =>
    "<div style=\"background-color: #ffffff; padding: 24px; border-radius: 12px; margin: 20px 0; box-shadow: 0 2px 8px rgba(0, 0, 0, 0.05); border-left: 4px solid #3b82f6;\">" ++
      "<h3 style=\"margin-top: 0; color: #111827; font-size: 18px; font-weight: 600;\">👥 Event Coordinators</h3>" ++
      "<div style=\"margin-top: 16px; display: grid; grid-template-columns: repeat(auto-fit, minmax(200px, 1fr)); gap: 16px;\">" ++
      String.join ((c :: cs).map coordinatorItemHTML) ++ "</div></div>"
  | _ => ""

/-- A left-bordered free-text block (instructions / resources / description,
part_002 lines 243-270): shown when the value is truthy and neither "TBA" nor
"null". -/
def freeTextBlockHTML (borderColor heading : String) (value : Option String) : String :=
  if jsTruthyStr value && value != some "TBA" && value != some "null" then
    "<div style=\"background-color: #ffffff; padding: 24px; border-radius: 12px; margin: 20px 0; box-shadow: 0 2px 8px rgba(0, 0, 0, 0.05); border-left: 4px solid " ++ borderColor ++ ";\">" ++
      "<h3 style=\"margin-top: 0; color: #111827; font-size: 18px; font-weight: 600;\">" ++ heading ++ "</h3>" ++
      "<p style=\"margin: 16px 0 0; color: #374151; line-height: 1.6;\">" ++ ((value).getD "") ++ "</p></div>"
  else ""

/-- The team-size line (part_002 lines 278-282). -/
def teamSizeText (ts : Option TeamBounds) : Option String :=
  match ts with
  | none => none
  | some b =>
    if b.min = b.max then
      some (toString b.min ++ " " ++ (if b.min = 1 then "person" else "people"))
    else
      some (toString b.min ++ "-" ++ toString b.max ++ " people")

/-- The fest-day line (part_002 lines 285-290). -/
def festDayInfoHTML (festDay : Option String) : String :=
  if jsTruthyStr festDay then
    "<div style=\"display: flex; align-items: flex-start; margin-bottom: 8px;\">" ++
      "<span style=\"color: #4f46e5; font-weight: 500; min-width: 100px;\">📅 Fest Day:</span>" ++
      "<span>" ++ (if festDay = some "day1" then "Day 1" else "Day 2") ++ "</span></div>"
  else ""

/-- A labelled detail line of the event-details box. -/
def detailLineHTML (label value : String) : String :=
  "<div style=\"display: flex; align-items: flex-start; margin-bottom: 8px;\">" ++
    "<span style=\"color: #4f46e5; font-weight: 500; min-width: 100px;\">" ++ label ++
    "</span><span>" ++ value ++ "</span></div>"

/-- The template body of `generateEmailTemplate` (part_002 lines 173-401),
with the `\x7b\x7bNAME\x7d\x7d` placeholder still in place.  The
`formatEventDateTime` helper lives in techelonsEventsData.js, which is not
among the sources; it is passed in as `fmt`, with `none` modelling the throw
caught on lines 184-189 (falling back to the raw `date`/`time` fields).  The
JS template literals' insignificant indentation whitespace is not reproduced;
all text, tags, attributes and interpolations are. -/
def buildTemplate (fmt : EventDetails → Option DateTimeParts) (ed : EventDetails)
    (whatsappLink : Option String) : String :=
  let formattedDate := match fmt ed with
    | some x => x.formattedDate
    | none => jsOr ed.date "To be announced"
  let formattedTime := match fmt ed with
    | some x => x.formattedTime
    | none => jsOr ed.time "To be announced"
  let dayOfWeek := match fmt ed with
    | some x => x.dayOfWeek
    | none => ""
  let category : Option String :=
    if jsTruthyStr ed.category then some (jsCapitalize (ed.category.getD "")) else none
  let eventName := jsOr (some ed.name) "Techelons-25"
  "<!DOCTYPE html><html><head><meta charset=\"utf-8\">" ++
    "<meta name=\"viewport\" content=\"width=device-width, initial-scale=1.0\">" ++
    "<title>Techelons-25 Registration Confirmation</title></head>" ++
    "<body style=\"margin: 0; padding: 0; font-family: \x27Segoe UI\x27, Tahoma, Geneva, Verdana, sans-serif; background-color: #f9fafb; color: #111827;\">" ++
    "<div style=\"max-width: 600px; margin: 0 auto; padding: 20px;\">" ++
    "<div style=\"text-align: center; margin-bottom: 24px;\">" ++
    "<h1 style=\"color: #4f46e5; margin: 0; font-size: 28px; font-weight: 700;\">Techelons-25</h1>" ++
    "<p style=\"margin: 8px 0 0; color: #6b7280; font-size: 16px;\">Shivaji College, University of Delhi</p></div>" ++
    "<div style=\"background-color: #ffffff; border-radius: 12px; padding: 32px; margin-bottom: 24px; box-shadow: 0 4px 6px rgba(0, 0, 0, 0.05);\">" ++
    "<h2 style=\"margin-top: 0; margin-bottom: 24px; color: #111827; font-size: 24px; font-weight: 600; text-align: center;\">Registration Confirmation</h2>" ++
    "<p style=\"margin-bottom: 24px; color: #374151; font-size: 16px; line-height: 1.6;\">Hello <span style=\"font-weight: 600; color: #4f46e5;\">\x7b\x7bNAME\x7d\x7d</span>,</p>" ++
    "<p style=\"margin-bottom: 24px; color: #374151; font-size: 16px; line-height: 1.6;\">Thank you for registering for <span style=\"font-weight: 600; color: #4f46e5;\">" ++
    eventName ++ "</span>! Your registration has been confirmed.</p>" ++
    "<div style=\"background-color: #f3f4f6; padding: 24px; border-radius: 12px; margin-bottom: 24px;\">" ++
    "<h3 style=\"margin-top: 0; color: #111827; font-size: 18px; font-weight: 600;\">Event Details</h3>" ++
    "<div style=\"margin-top: 16px; color: #374151;\">" ++
    detailLineHTML "🎯 Event:" eventName ++
    (match category with
     | some c => detailLineHTML "🏷️ Category:" c
     | none => "") ++
    (match teamSizeText ed.teamSize with
     | some t => detailLineHTML "👥 Team Size:" t
     | none => "") ++
    festDayInfoHTML ed.festDay ++
    detailLineHTML "📅 Date:" (formattedDate ++ (if dayOfWeek = "" then "" else " (" ++ dayOfWeek ++ ")")) ++
    detailLineHTML "⏰ Time:" formattedTime ++
    detailLineHTML "📍 Venue:" (jsOr ed.venue "To be announced") ++
    "</div></div>" ++
    (if jsTruthyStr whatsappLink then
      "<div style=\"background-color: #dcfce7; padding: 24px; border-radius: 12px; margin-bottom: 24px; border-left: 4px solid #10b981;\">" ++
        "<h3 style=\"margin-top: 0; color: #111827; font-size: 18px; font-weight: 600;\">📱 Join WhatsApp Group</h3>" ++
        "<p style=\"margin: 16px 0 0; color: #374151; line-height: 1.6;\">Please join the WhatsApp group for important updates and announcements:</p>" ++
        "<p style=\"margin: 16px 0 0; text-align: center;\"><a href=\"" ++ whatsappLink.getD "" ++
        "\" style=\"display: inline-block; background-color: #10b981; color: white; text-decoration: none; padding: 12px 24px; border-radius: 6px; font-weight: 500; margin-top: 8px;\">Join WhatsApp Group</a></p></div>"
     else "") ++
    freeTextBlockHTML "#6366f1" "📝 About the Event" ed.description ++
    freeTextBlockHTML "#f59e0b" "ℹ️ Special Instructions" ed.instructions ++
    rulesHTML ed ++
    prizesHTML ed ++
    freeTextBlockHTML "#8b5cf6" "📚 Recommended Resources" ed.resources ++
    coordinatorsHTML ed ++
    "<div style=\"margin-top: 32px; padding-top: 24px; border-top: 1px solid #e5e7eb; text-align: center;\">" ++
    "<p style=\"margin: 0; color: #6b7280; font-size: 14px;\">We look forward to seeing you at the event!</p>" ++
    "<p style=\"margin: 8px 0 0; color: #6b7280; font-size: 14px;\">For any queries, please contact the event coordinators.</p></div></div>" ++
    "<div style=\"text-align: center; margin-top: 24px; color: #6b7280; font-size: 12px;\">" ++
    "<p style=\"margin: 0;\">This is an automated email. Please do not reply to this email.</p>" ++
    "<p style=\"margin: 8px 0 0;\">&copy; 2025 Techelons-25, Shivaji College, University of Delhi</p>" ++
    "</div></div></body></html>"

/-- `TEMPLATE_CACHE_TTL` (part_002 line 151): one hour. -/
def TEMPLATE_CACHE_TTL : Int := 60 * 60 * 1000

/-- The module-level `templateCache` Map: key, raw template, store time. -/
abbrev TemplateCache := List (String × String × Int)

/-- The inputs of `generateEmailTemplate`. -/
structure TemplateArgs where
  name : Option String
  eventDetails : EventDetails
  whatsappLink : Option String

/-- The cache key (part_002 line 163):
`$\x7beventDetails?.id || 'unknown'\x7d_$\x7b!!whatsappLink\x7d` — only the
event id and the *presence* of a WhatsApp link. -/
def cacheKey (ed : EventDetails) (link : Option String) : String :=
  (if ed.id = "" then "unknown" else ed.id) ++ "_" ++
    (if jsTruthyStr link then "true" else "false")

/-- `templateCache.get(key)`. -/
def cacheFind (k : String) : TemplateCache → Option (String × Int)
  | [] => none
  | (k', tpl, ts) :: rest => if k' = k then some (tpl, ts) else cacheFind k rest

/-- `templateCache.set(key, ...)`; prepending with first-match lookup models
the overwrite. -/
def cacheSet (k : String) (tpl : String) (ts : Int) (c : TemplateCache) : TemplateCache :=
  (k, tpl, ts) :: c

/-- The name placeholder of the cached template. -/
def NAME_PLACEHOLDER : String := "\x7b\x7bNAME\x7d\x7d"

/-- `template.replace(/\x7b\x7bNAME\x7d\x7d/g, name || 'Participant')`
(part_002 lines 169-170 and 410). -/
def personalize (tpl : String) (name : Option String) : String :=
  jsReplaceAll tpl NAME_PLACEHOLDER (jsOr name "Participant")

/-- `generateEmailTemplate` (part_002 lines 161-411): look the key up in the
template cache; a fresh hit returns the cached raw template with only the
name re-substituted; otherwise the template is rebuilt, stored under the key
with the current time, and personalized. -/
def generateEmailTemplate (now : Int) (cache : TemplateCache)
    (fmt : EventDetails → Option DateTimeParts) (args : TemplateArgs) :
    String × TemplateCache :=
  let key := cacheKey args.eventDetails args.whatsappLink
  let miss :=
    let tpl := buildTemplate fmt args.eventDetails args.whatsappLink
    (personalize tpl args.name, cacheSet key tpl now cache)
  match cacheFind key cache with
  | some (tpl, ts) =>
    if now - ts < TEMPLATE_CACHE_TTL then (personalize tpl args.name, cache) else miss
  | none => miss

/-- The error value reaching `sendEmail`'s catch block. -/
structure MailErrorInfo where
  message : String
  code : Option String
  responseCode : Option Int
  response : Option String
deriving DecidableEq

/-- The nodemailer `sendMail` info object (only `messageId` is consulted). -/
structure MailInfo where
  messageId : Option String
deriving DecidableEq

/-- The effectful collaborators of `sendEmail`: the `createTransporter` step
(whose cache misses, test-account creation and `verify` failures all surface
as a throw) and the `transporter.sendMail` call. -/
structure SendEnv where
  createTransporterResult : Except MailErrorInfo Unit
  sendMailResult : Except MailErrorInfo MailInfo

/-- The result object `sendEmail` resolves with; absent JS properties are
`none`/`false`. -/
structure EmailResult where
  success : Bool
  messageId : Option String
  previewUrl : Option String
  testMode : Bool
  error : Option String
  details : Option String
  code : Option String
deriving DecidableEq

/-- The `errorDetails` classification of the catch block (part_002 lines
127-138). -/
def errorDetailsOf (e : MailErrorInfo) : String :=
  if e.code = some "EAUTH" then
    "Authentication failed. Check email username and password in .env file."
  else if e.code = some "ESOCKET" then
    "Socket connection error. Check email host and port settings."
  else if e.code = some "ECONNECTION" then
    "Connection error. Check network and email server settings."
  else
    match e.responseCode with
    | some rc => "SMTP response code: " ++ toString rc ++ ", message: " ++ jsFieldStr e.response
    | none => "Unknown error"

/-- The failure object returned by `sendEmail`'s catch block (part_002 lines
140-145). -/
def emailFailure (e : MailErrorInfo) : EmailResult :=
  { success := false, messageId := none, previewUrl := none, testMode := false,
    error := some e.message, details := some (errorDetailsOf e), code := e.code }

/-- Substring test (JS `String.prototype.includes`). -/
def listInfix (pat : List Char) : List Char → Bool
  | [] => pat.isEmpty
  | c :: rest => pat.isPrefixOf (c :: rest) || listInfix pat rest

/-- `sendEmail` (part_002 lines 90-147): the whole body sits in a
`try`/`catch` whose catch returns a `success: false` object, so the function
resolves with a result object on every path and never throws to its caller.
Totality of this definition is the embedded form of "never throws". -/
def sendEmail (env : SendEnv) : EmailResult :=
  match env.createTransporterResult with
  | .error e => emailFailure e
  | .ok _ =>
    match env.sendMailResult with
    | .error e => emailFailure e
    | .ok info =>
      match info.messageId with
      | some mid =>
        if listInfix "ethereal".data mid.data then
          { success := true, messageId := some mid,
            previewUrl := some "(nodemailer test message url)", testMode := true,
            error := none, details := none, code := none }
        else
          { success := true, messageId := some mid, previewUrl := none,
            testMode := false, error := none, details := none, code := none }
      | none =>
        { success := true, messageId := none, previewUrl := none,
          testMode := false, error := none, details := none, code := none }

/-- The JSON body of the submission endpoint's response, as consumed by
`onSubmit` (page.js lines 278-324). -/
structure ServerResponse where
  ok : Bool
  registrationToken : String
  emailSent : Bool
deriving DecidableEq

/-- The confirmation route `router.push` navigates to (page.js line 324),
modelled structurally. -/
structure NavTarget where
  path : String
  event : String
  token : String
  emailSent : Bool
deriving DecidableEq

/-- The user-observable outcome of the response handling. -/
structure ControllerOutcome where
  reportedSuccess : Bool
  emailWarningShown : Bool
  navigatedTo : Option NavTarget
deriving DecidableEq

/-- The response-handling tail of `onSubmit` (page.js lines 283-343): a
non-ok response throws into the catch (error toast, no navigation); an ok
response shows the success toast, then either the confirmation-email toast or
— when `result.emailSent` is false — the downgraded warning toast, and in
both cases resets the form and navigates to the techelons confirmation route
carrying the registration token and the emailSent flag. -/
def onSubmitOutcome (eventId : String) (resp : ServerResponse) : ControllerOutcome :=
  if resp.ok then
    { reportedSuccess := true
      emailWarningShown := !resp.emailSent
      navigatedTo := some { path := "/formsubmitted/techelons", event := eventId,
                            token := resp.registrationToken, emailSent := resp.emailSent } }
  else
    { reportedSuccess := false, emailWarningShown := false, navigatedTo := none }

/- ### Concrete records used by the theorems below -/

/-- A concretely valid uploaded file. -/
def sampleFile : FileData := { size := 100000, mimeType := "image/png" }

/-- A concretely valid person record. -/
def sampleRegistrant : PersonData :=
  { name := "Asha Rao", email := "asha@du.ac.in", phone := "9876543210",
    rollNo := "21BSC101", college := "Shivaji College", otherCollege := none,
    collegeId := some sampleFile }

/-- A person record choosing the "Other" college but leaving the companion
college-name field unregistered (`undefined`), all other fields valid. -/
def otherNoNamePerson : PersonData :=
  { name := "Ravi Kumar", email := "ravi@gmail.com", phone := "8876543210",
    rollNo := "33", college := "Other", otherCollege := none,
    collegeId := some sampleFile }

/-- A submission carrying a valid registrant and an empty team-member array. -/
def submissionWithNoMembers : TechFormData :=
  { registrant := sampleRegistrant, event := "coding-challenge", course := "BSc CS",
    year := "1st Year", query := none, teamMembers := some [] }

/-- A submission carrying one team member. -/
def sampleTeamSubmission : TechFormData :=
  { registrant := sampleRegistrant, event := "robo-race", course := "BSc CS",
    year := "1st Year", query := none, teamMembers := some [otherNoNamePerson] }

/-- Concrete event details with venue "Room A" and everything optional empty. -/
def edRoomA : EventDetails :=
  { id := "codequest", name := "CodeQuest", category := none, teamSize := none,
    festDay := none, date := none, time := none, venue := some "Room A",
    prizes := none, rules := none, coordinators := none, instructions := none,
    resources := none, description := none }

/-- The same event details with the venue overridden to "Room B Hall". -/
def edRoomB : EventDetails := { edRoomA with venue := some "Room B Hall" }

/-- A date-time formatter that always throws (exercising the fallback). -/
def fmtNone : EventDetails → Option DateTimeParts := fun _ => none

/-- Template arguments for `edRoomA`; the participant's display name is the
literal placeholder text, making the personalization step the identity. -/
def argsRoomA : TemplateArgs :=
  { name := some NAME_PLACEHOLDER, eventDetails := edRoomA, whatsappLink := none }

/-- Template arguments identical to `argsRoomA` except for the venue. -/
def argsRoomB : TemplateArgs :=
  { name := some NAME_PLACEHOLDER, eventDetails := edRoomB, whatsappLink := none }

/- ### Helper lemmas -/

/-- Replacing a pattern by itself is the identity. -/
theorem replaceAllAux_self (pat : List Char) :
    ∀ (fuel : Nat) (cs : List Char), replaceAllAux pat pat fuel cs = cs := by
  intro fuel
  induction fuel with
  | zero =>
    intro cs
    cases cs <;> simp [replaceAllAux]
  | succ n ih =>
    intro cs
    cases cs with
    | nil => simp [replaceAllAux]
    | cons c rest =>
      rw [replaceAllAux]
      by_cases h : pat ≠ [] ∧ pat.isPrefixOf (c :: rest)
      · rw [if_pos h]
        have hpre : pat <+: (c :: rest) := List.isPrefixOf_iff_prefix.mp h.2
        obtain ⟨t, ht⟩ := hpre
        rw [← ht, List.drop_left, ih t]
      · rw [if_neg h, ih rest]

/-- Personalizing a template for a participant whose display name is the
placeholder text itself changes nothing. -/
theorem personalize_placeholder (tpl : String) :
    personalize tpl (some NAME_PLACEHOLDER) = tpl := by
  have h : jsOr (some NAME_PLACEHOLDER) "Participant" = NAME_PLACEHOLDER := by decide
  rw [personalize, jsReplaceAll, h, replaceAllAux_self]

/-- The two venue variants generate templates of different lengths, hence
different templates. -/
theorem tpl_venue_ne :
    buildTemplate fmtNone edRoomA none ≠ buildTemplate fmtNone edRoomB none := by
  intro h
  have hl := congrArg String.length h
  simp only [buildTemplate, fmtNone, edRoomA, edRoomB, detailLineHTML,
    festDayInfoHTML, teamSizeText, prizesHTML, rulesHTML, coordinatorsHTML,
    freeTextBlockHTML, jsOr, jsTruthyStr, jsCapitalize,
    String.length_append] at hl
  rw [show ((if ("Room A" : String) = "" then "To be announced" else "Room A")) = "Room A" from rfl,
    show ((if ("Room B Hall" : String) = "" then "To be announced" else "Room B Hall")) = "Room B Hall" from rfl,
    show (("Room A" : String)).length = 6 from rfl,
    show (("Room B Hall" : String)).length = 11 from rfl] at hl
  omega

/-- Splitting never yields the empty list of segments. -/
theorem splitOnChar_ne_nil (sep : Char) (cs : List Char) : splitOnChar sep cs ≠ [] := by
  cases cs with
  | nil => simp [splitOnChar]
  | cons c rest =>
    rw [splitOnChar]
    rcases hr : splitOnChar sep rest with _ | ⟨h, t⟩
    · simp
    · by_cases hc : c = sep <;> simp [hc]

/-- Splitting a separator-free list yields the single segment. -/
theorem splitOnChar_no_sep (sep : Char) (cs : List Char) (h : sep ∉ cs) :
    splitOnChar sep cs = [cs] := by
  induction cs with
  | nil => rfl
  | cons c rest ih =>
    have hc : c ≠ sep := fun hh => h (hh ▸ List.mem_cons_self c rest)
    rw [splitOnChar, ih (fun hm => h (List.mem_cons_of_mem c hm))]
    simp [hc]

/-- Splitting at the first separator detaches the separator-free head. -/
theorem splitOnChar_append_sep (sep : Char) (a b : List Char) (h : sep ∉ a) :
    splitOnChar sep (a ++ sep :: b) = a :: splitOnChar sep b := by
  induction a with
  | nil =>
    rw [List.nil_append, splitOnChar]
    rcases hr : splitOnChar sep b with _ | ⟨hd, t⟩
    · exact absurd hr (splitOnChar_ne_nil sep b)
    · simp
  | cons c rest ih =>
    have hc : c ≠ sep := fun hh => h (hh ▸ List.mem_cons_self c rest)
    rw [List.cons_append, splitOnChar, ih (fun hm => h (List.mem_cons_of_mem c hm))]
    simp [hc]

/-- Lookup walks past a prefix that does not bind the key. -/
theorem lookupField_append_none (k : FieldKey) (xs ys : List (FieldKey × FieldValue))
    (h : lookupField k xs = none) :
    lookupField k (xs ++ ys) = lookupField k ys := by
  induction xs with
  | nil => rfl
  | cons e rest ih =>
    rcases e with ⟨k', v⟩
    rw [lookupField] at h
    rw [List.cons_append, lookupField]
    by_cases hk : k' = k
    · simp [hk] at h
    · rw [if_neg hk] at h ⊢
      exact ih h

/-- The member at array index `j` is serialized under the field index `i + j`
when the loop starts at index `i`. -/
theorem lookupField_team_json (ms : List PersonData) :
    ∀ (i j : Nat) (m : PersonData), ms[j]? = some m →
      lookupField (.teamMember (i + j)) (appendTeamEntries i ms) =
        some (.memberJson (serializeMember m)) := by
  induction ms with
  | nil => intro i j m h; simp at h
  | cons hd tl ih =>
    intro i j m h
    cases j with
    | zero =>
      simp at h
      subst h
      cases hfd : hd.collegeId <;> simp [appendTeamEntries, lookupField, hfd]
    | succ j' =>
      simp only [List.getElem?_cons_succ] at h
      have hne : FieldKey.teamMember i ≠ FieldKey.teamMember (i + (j' + 1)) := by
        simp only [ne_eq, FieldKey.teamMember.injEq]
        omega
      have harith : i + (j' + 1) = (i + 1) + j' := by omega
      have htl := ih (i + 1) j' m h
      cases hfd : hd.collegeId with
      | none =>
        simp only [appendTeamEntries, hfd, List.nil_append, List.cons_append, lookupField]
        rw [if_neg hne, harith]
        exact htl
      | some f =>
        have hne2 : FieldKey.teamMemberCollegeId i ≠ FieldKey.teamMember (i + (j' + 1)) := by
          simp
        simp only [appendTeamEntries, hfd, List.cons_append, List.nil_append, lookupField]
        rw [if_neg hne, if_neg hne2, harith]
        exact htl

/-- The file of the member at array index `j` is appended under the field
index `i + j` when the loop starts at index `i`. -/
theorem lookupField_team_file (ms : List PersonData) :
    ∀ (i j : Nat) (m : PersonData) (f : FileData), ms[j]? = some m →
      m.collegeId = some f →
      lookupField (.teamMemberCollegeId (i + j)) (appendTeamEntries i ms) =
        some (.file f) := by
  induction ms with
  | nil => intro i j m f h hf; simp at h
  | cons hd tl ih =>
    intro i j m f h hf
    cases j with
    | zero =>
      simp at h
      subst h
      simp [appendTeamEntries, hf, lookupField]
    | succ j' =>
      simp only [List.getElem?_cons_succ] at h
      have hne : FieldKey.teamMember i ≠ FieldKey.teamMemberCollegeId (i + (j' + 1)) := by
        simp
      have hne2 : FieldKey.teamMemberCollegeId i ≠ FieldKey.teamMemberCollegeId (i + (j' + 1)) := by
        simp only [ne_eq, FieldKey.teamMemberCollegeId.injEq]
        omega
      have harith : i + (j' + 1) = (i + 1) + j' := by omega
      have htl := ih (i + 1) j' m f h hf
      cases hfd : hd.collegeId with
      | none =>
        simp only [appendTeamEntries, hfd, List.nil_append, List.cons_append, lookupField]
        rw [if_neg hne, harith]
        exact htl
      | some g =>
        simp only [appendTeamEntries, hfd, List.cons_append, List.nil_append, lookupField]
        rw [if_neg hne, if_neg hne2, harith]
        exact htl

/-- No JSON field exists at an index at or beyond the serialized length. -/
theorem lookupField_team_json_ge (ms : List PersonData) :
    ∀ (i j : Nat), ms.length ≤ j →
      lookupField (.teamMember (i + j)) (appendTeamEntries i ms) = none := by
  induction ms with
  | nil => intro i j h; rfl
  | cons hd tl ih =>
    intro i j h
    simp only [List.length_cons] at h
    have hne : FieldKey.teamMember i ≠ FieldKey.teamMember (i + j) := by
      simp only [ne_eq, FieldKey.teamMember.injEq]
      omega
    have harith : i + j = (i + 1) + (j - 1) := by omega
    have htl := ih (i + 1) (j - 1) (by omega)
    cases hfd : hd.collegeId with
    | none =>
      simp only [appendTeamEntries, hfd, List.nil_append, List.cons_append, lookupField]
      rw [if_neg hne, harith]
      exact htl
    | some f =>
      have hne2 : FieldKey.teamMemberCollegeId i ≠ FieldKey.teamMember (i + j) := by
        simp
      simp only [appendTeamEntries, hfd, List.cons_append, List.nil_append, lookupField]
      rw [if_neg hne, if_neg hne2, harith]
      exact htl

/-- No file field exists at an index at or beyond the serialized length. -/
theorem lookupField_team_file_ge (ms : List PersonData) :
    ∀ (i j : Nat), ms.length ≤ j →
      lookupField (.teamMemberCollegeId (i + j)) (appendTeamEntries i ms) = none := by
  induction ms with
  | nil => intro i j h; rfl
  | cons hd tl ih =>
    intro i j h
    simp only [List.length_cons] at h
    have hne : FieldKey.teamMember i ≠ FieldKey.teamMemberCollegeId (i + j) := by
      simp
    have hne2 : FieldKey.teamMemberCollegeId i ≠ FieldKey.teamMemberCollegeId (i + j) := by
      simp only [ne_eq, FieldKey.teamMemberCollegeId.injEq]
      omega
    have harith : i + j = (i + 1) + (j - 1) := by omega
    have htl := ih (i + 1) (j - 1) (by omega)
    cases hfd : hd.collegeId with
    | none =>
      simp only [appendTeamEntries, hfd, List.nil_append, List.cons_append, lookupField]
      rw [if_neg hne, harith]
      exact htl
    | some f =>
      simp only [appendTeamEntries, hfd, List.cons_append, List.nil_append, lookupField]
      rw [if_neg hne, if_neg hne2, harith]
      exact htl

/-- The non-team part of the payload binds no JSON member key. -/
theorem lookupField_main_tm (d : TechFormData) (i : Nat) :
    lookupField (.teamMember i) (mainEntries d) = none := by
  cases hc : d.registrant.collegeId <;> simp [mainEntries, lookupField, hc]

/-- The non-team part of the payload binds no member file key. -/
theorem lookupField_main_tmcid (d : TechFormData) (i : Nat) :
    lookupField (.teamMemberCollegeId i) (mainEntries d) = none := by
  cases hc : d.registrant.collegeId <;> simp [mainEntries, lookupField, hc]

/- ### The claims -/

/-- Claim C1: on the two protected paths, an absent token redirects to `/`;
a token whose base64 decoding fails the e-mail pattern (general pattern or
academic allow-list) redirects; a token decoding to a pattern-matching e-mail
with no bar segment passes through; concretely,
`base64("student@du.ac.in")` is accepted and `base64("not-an-email")` is
redirected. -/
theorem C1_token_gate (now : Int) (path : String)
    (hpath : path = "/formsubmitted/workshop" ∨ path = "/formsubmitted/techelons") :
    middleware now { pathname := path, token := none } = .redirectHome ∧
    (∀ t, emailRegexTest (b64decode t) = false →
      middleware now { pathname := path, token := some t } = .redirectHome) ∧
    (∀ t, emailRegexTest (b64decode t) = true →
      (b64decode t).data.contains '|' = false →
      middleware now { pathname := path, token := some t } = .next) ∧
    middleware now { pathname := path, token := some (b64encode "student@du.ac.in") } = .next ∧
    middleware now { pathname := path, token := some (b64encode "not-an-email") } = .redirectHome := by
  have hprot : isProtectedPath path = true := by
    rcases hpath with h | h <;> simp [isProtectedPath, h]
  refine ⟨?_, ?_, ?_, ?_, ?_⟩
  · simp [middleware, hprot]
  · intro t hreg
    by_cases ht : t = ""
    · simp [middleware, hprot, ht]
    · simp [middleware, hprot, ht, hreg]
  · intro t hreg hbar
    have ht : t ≠ "" := by
      intro ht
      rw [ht] at hreg
      exact absurd hreg (by decide)
    have hbar' : '|' ∉ (b64decode t).data := by simpa using hbar
    simp [middleware, hprot, ht, hreg, hbar']
  · simp only [middleware, hprot, if_true]
    rfl
  · simp only [middleware, hprot, if_true]
    rfl

/-- Witness for C1 at concrete inputs. -/
theorem C1_token_gate_witness :
    middleware 0 { pathname := "/formsubmitted/techelons",
                   token := some (b64encode "student@du.ac.in") } = .next ∧
    middleware 0 { pathname := "/formsubmitted/workshop", token := none } = .redirectHome :=
  ⟨(C1_token_gate 0 "/formsubmitted/techelons" (Or.inr rfl)).2.2.2.1,
   (C1_token_gate 0 "/formsubmitted/workshop" (Or.inl rfl)).1⟩

/-- Claim C2 (code-bug evidence): the token
`base64("student@du.ac.in|1700000000000")`, checked at the very millisecond
it was minted (age zero), is redirected, although its e-mail part matches the
pattern and the expiry test itself would accept it; line 22 applies the regex
to the full decoded string, whose bar no character class admits, so every
timestamped token is redirected before the age check of lines 28-38 runs. -/
theorem C2_timestamped_token_redirected :
    middleware 1700000000000 { pathname := "/formsubmitted/techelons",
                               token := some (b64encode "student@du.ac.in|1700000000000") } =
      .redirectHome ∧
    emailRegexTest "student@du.ac.in" = true ∧
    emailRegexTest "student@du.ac.in|1700000000000" = false ∧
    tokenExpiryRedirect 1700000000000 "student@du.ac.in|1700000000000" = false := by
  decide

/-- Claim C3: the expiry decision of src/middleware.js lines 28-38 is the
single fixed strict inequality `now - timestamp > 24 * 60 * 60 * 1000` for
every decoded token `email|timestamp` that reaches it: age exactly 24 hours
is not expired, age 24 hours plus one millisecond is. -/
theorem C3_expiry_boundary (now : Int) (email tsStr : String) (ts : Int)
    (hbar1 : '|' ∉ email.data) (hbar2 : '|' ∉ tsStr.data)
    (hparse : parseIntJS tsStr.data = some ts) :
    tokenExpiryRedirect now (email ++ "|" ++ tsStr) =
      decide (now - ts > 24 * 60 * 60 * 1000) := by
  have hd : (email ++ "|" ++ tsStr).data = email.data ++ '|' :: tsStr.data := by
    simp [String.data_append]
  rw [tokenExpiryRedirect]
  rw [hd, splitOnChar_append_sep _ _ _ hbar1, splitOnChar_no_sep _ _ hbar2]
  simp [hparse]

/-- Witness for C3 at the 24-hour boundary. -/
theorem C3_expiry_boundary_witness :
    tokenExpiryRedirect 86400000 ("student@du.ac.in" ++ "|" ++ "0") = false ∧
    tokenExpiryRedirect 86400001 ("student@du.ac.in" ++ "|" ++ "0") = true := by
  constructor
  · rw [C3_expiry_boundary 86400000 "student@du.ac.in" "0" 0 (by decide) (by decide) (by decide)]
    rfl
  · rw [C3_expiry_boundary 86400001 "student@du.ac.in" "0" 0 (by decide) (by decide) (by decide)]
    rfl

/-- Claim C4 counterexample: for bounds `min = 0`, `max = 3` (which satisfy
`min ≤ max` and `max > 1`), selecting and then removing twice drives the
count to `-1`, strictly below the claimed lower bound `max(0, min - 1) = 0`. -/
theorem C4_counterexample :
    (1 : Int) < 3 ∧ (0 : Int) ≤ 3 ∧
    runTeamOps ⟨0, 3⟩ [.remove, .remove] = -1 ∧
    ¬(max 0 ((0 : Int) - 1) ≤ runTeamOps ⟨0, 3⟩ [.remove, .remove]) := by
  decide

/-- Claim C4 (amended): for every event with bounds `1 ≤ min ≤ max` and
`max > 1`, selection sets the count to `max(1, min - 1)`, add clamps at
`max - 1`, remove clamps at `min - 1`, the lower bound `min - 1` coincides
with `max(0, min - 1)`, and every add/remove sequence keeps the count inside
`[min - 1, max - 1]`. -/
theorem C4_team_count_range (b : TeamBounds) (hmin : 1 ≤ b.min)
    (hminmax : b.min ≤ b.max) (hmax : 1 < b.max) :
    selectTeamSize b = max 1 (b.min - 1) ∧
    (∀ c : Int, handleAddMember b c = min (b.max - 1) (c + 1)) ∧
    (∀ c : Int, handleRemoveMember b c = max (b.min - 1) (c - 1)) ∧
    max 0 (b.min - 1) = b.min - 1 ∧
    (∀ ops : List TeamOp, b.min - 1 ≤ runTeamOps b ops ∧ runTeamOps b ops ≤ b.max - 1) := by
  refine ⟨rfl, fun _ => rfl, fun _ => rfl, by omega, ?_⟩
  have hstep : ∀ (c : Int) (op : TeamOp), b.min - 1 ≤ c → c ≤ b.max - 1 →
      b.min - 1 ≤ applyTeamOp b c op ∧ applyTeamOp b c op ≤ b.max - 1 := by
    intro c op h1 h2
    cases op <;> simp [applyTeamOp, handleAddMember, handleRemoveMember] <;> omega
  have hinit : b.min - 1 ≤ selectTeamSize b ∧ selectTeamSize b ≤ b.max - 1 := by
    simp [selectTeamSize]; omega
  suffices hall : ∀ (l : List TeamOp) (c : Int), b.min - 1 ≤ c → c ≤ b.max - 1 →
      b.min - 1 ≤ l.foldl (applyTeamOp b) c ∧ l.foldl (applyTeamOp b) c ≤ b.max - 1 by
    intro ops
    exact hall ops _ hinit.1 hinit.2
  intro l
  induction l with
  | nil => intro c h1 h2; exact ⟨h1, h2⟩
  | cons op rest ih =>
    intro c h1 h2
    have hc := hstep c op h1 h2
    exact ih _ hc.1 hc.2

/-- Witness for C4 at bounds `{min := 2, max := 4}`. -/
theorem C4_team_count_range_witness :
    (2 : Int) - 1 ≤ runTeamOps ⟨2, 4⟩ [.add, .add, .remove] ∧
      runTeamOps ⟨2, 4⟩ [.add, .add, .remove] ≤ 4 - 1 :=
  (C4_team_count_range ⟨2, 4⟩ (by decide) (by decide) (by decide)).2.2.2.2
    [.add, .add, .remove]

/-- Claim C5 (code-bug evidence): for an event with `teamSize = {min := 3,
max := 5}` and a submission carrying a valid registrant and an empty
team-member array, the resolver's schema accepts the data and the fetch to
the submission endpoint is issued, while the refinement `getFormSchema`'s
text builds (at least `min - 1 = 2` members) rejects it: the spread
`\x7b ...baseFormSchema \x7d` copies validators bound to the base schema, so
the assigned team-member bounds are never enforced. -/
theorem C5_team_bounds_not_enforced :
    resolverValidate (getFormSchema (some ⟨3, 5⟩)) submissionWithNoMembers = true ∧
    (submitPipeline (some ⟨3, 5⟩) 0 submissionWithNoMembers).isSome = true ∧
    intendedFormSchemaOk (some ⟨3, 5⟩) submissionWithNoMembers = false := by
  decide

/-- Claim C6 counterexample: a person record with college "Other" and an
absent (`undefined`) companion college name passes the person schema, because
`otherCollegeSchema` is `optional().nullable()` — the claim's "mandatory
non-empty otherCollege" fails on the code. -/
theorem C6_counterexample :
    otherNoNamePerson.college = "Other" ∧ otherNoNamePerson.otherCollege = none ∧
      personSchemaOk otherNoNamePerson = true := by
  decide

/-- Claim C6 (amended): whenever `otherCollege` is present as a string it
must have 2 to 100 characters for validation to succeed — in particular the
empty string left by clearing fails — regardless of the chosen college, while
an absent (`undefined`/`null`) value always passes, even with college
"Other"; and the registrant's college handler, on switching back to "Shivaji
College", clears and unregisters `otherCollege`, which then passes the schema
unconditionally. -/
theorem C6_other_college_rules :
    (∀ p : PersonData, p.otherCollege = some "" → personSchemaOk p = false) ∧
    (∀ (p : PersonData) (s : String), p.otherCollege = some s → personSchemaOk p = true →
      2 ≤ s.length ∧ s.length ≤ 100) ∧
    (∀ st : CollegeFields, (onCollegeChange st "Shivaji College").otherCollege = none) ∧
    (∀ p : PersonData, p.otherCollege = none → otherCollegeSchemaOk p.otherCollege = true) := by
  refine ⟨?_, ?_, ?_, ?_⟩
  · intro p hp
    simp [personSchemaOk, otherCollegeSchemaOk, hp]
  · intro p s hp hv
    simp [personSchemaOk, otherCollegeSchemaOk, hp] at hv
    omega
  · intro st
    simp [onCollegeChange]
  · intro p hp
    simp [otherCollegeSchemaOk, hp]

/-- Witness for C6 at concrete records. -/
theorem C6_other_college_rules_witness :
    personSchemaOk { name := "Ravi Kumar", email := "ravi@gmail.com",
                     phone := "8876543210", rollNo := "33", college := "Other",
                     otherCollege := some "", collegeId := some sampleFile } = false ∧
    (onCollegeChange { college := "Other", otherCollege := some "Delhi University" }
        "Shivaji College").otherCollege = none :=
  ⟨C6_other_college_rules.1 _ rfl, C6_other_college_rules.2.2.1 _⟩

/-- Claim C7: for a validated form state whose team-member array has exactly
`k = currentTeamMemberCount` entries, the multipart payload binds, for each
`i < k`, the field `teamMember_<i>` to the JSON encoding of member `i`'s six
fields (name, email, phone, rollNo, college, otherCollege) and the separate
field `teamMember_<i>_collegeId` to that member's file; no `teamMember_<i>`
or `teamMember_<i>_collegeId` field exists for `i ≥ k`; members are
individually addressable parts, never nested inside one field. -/
theorem C7_multipart_payload (d : TechFormData) (k : Nat) (ms : List PersonData)
    (hms : d.teamMembers = some ms) (hlen : ms.length = k) :
    (∀ (i : Nat) (m : PersonData), ms[i]? = some m →
      lookupField (.teamMember i) (prepareFormData k d) =
        some (.memberJson (serializeMember m)) ∧
      (∀ f, m.collegeId = some f →
        lookupField (.teamMemberCollegeId i) (prepareFormData k d) = some (.file f))) ∧
    (∀ i : Nat, k ≤ i →
      lookupField (.teamMember i) (prepareFormData k d) = none ∧
      lookupField (.teamMemberCollegeId i) (prepareFormData k d) = none) := by
  have htake : ms.take k = ms := by rw [← hlen]; exact List.take_length ms
  have hform : prepareFormData k d = mainEntries d ++ appendTeamEntries 0 ms := by
    simp only [prepareFormData, hms, htake]
  constructor
  · intro i m hget
    constructor
    · rw [hform, lookupField_append_none _ _ _ (lookupField_main_tm d i)]
      have hj := lookupField_team_json ms 0 i m hget
      simpa using hj
    · intro f hf
      rw [hform, lookupField_append_none _ _ _ (lookupField_main_tmcid d i)]
      have hj := lookupField_team_file ms 0 i m f hget hf
      simpa using hj
  · intro i hi
    constructor
    · rw [hform, lookupField_append_none _ _ _ (lookupField_main_tm d i)]
      have hj := lookupField_team_json_ge ms 0 i (by omega)
      simpa using hj
    · rw [hform, lookupField_append_none _ _ _ (lookupField_main_tmcid d i)]
      have hj := lookupField_team_file_ge ms 0 i (by omega)
      simpa using hj

/-- Witness for C7 at a one-member submission. -/
theorem C7_multipart_payload_witness :
    lookupField (.teamMember 0) (prepareFormData 1 sampleTeamSubmission) =
      some (.memberJson (serializeMember otherNoNamePerson)) ∧
    lookupField (.teamMember 1) (prepareFormData 1 sampleTeamSubmission) = none := by
  have h := C7_multipart_payload sampleTeamSubmission 1 [otherNoNamePerson] rfl rfl
  exact ⟨(h.1 0 otherNoNamePerson rfl).1, (h.2 1 (by omega)).1⟩

/-- Claim C8 counterexample: two calls that differ only in the venue override
share the cache key (same event id, same link presence), so the second call
— a fresh hit — returns the first call's HTML, which differs from what fresh
generation with the second call's arguments produces. -/
theorem C8_counterexample :
    (generateEmailTemplate 0 ((generateEmailTemplate 0 [] fmtNone argsRoomA).2)
        fmtNone argsRoomB).1 ≠
      (generateEmailTemplate 0 [] fmtNone argsRoomB).1 := by
  intro h
  apply tpl_venue_ne
  rw [← personalize_placeholder (buildTemplate fmtNone edRoomA none),
    ← personalize_placeholder (buildTemplate fmtNone edRoomB none)]
  exact h

/-- Claim C8 (amended): a cache hit re-personalizes only the name — when the
cached entry was stored, within the TTL, by a call with the *same*
`eventDetails` and `whatsappLink`, the hit returns exactly the HTML a fresh
generation with the current arguments (any name) would produce; purity fails
only when the hit's entry came from arguments differing outside the key
(date/time/venue overrides or the link URL). -/
theorem C8_template_cache (now1 now2 : Int) (fmt : EventDetails → Option DateTimeParts)
    (ed : EventDetails) (link : Option String) (name1 name2 : Option String)
    (hTTL : now2 - now1 < TEMPLATE_CACHE_TTL) :
    (generateEmailTemplate now2
        ((generateEmailTemplate now1 [] fmt
            { name := name1, eventDetails := ed, whatsappLink := link }).2)
        fmt { name := name2, eventDetails := ed, whatsappLink := link }).1 =
      (generateEmailTemplate now2 [] fmt
          { name := name2, eventDetails := ed, whatsappLink := link }).1 := by
  have h2 : (generateEmailTemplate now1 [] fmt
      { name := name1, eventDetails := ed, whatsappLink := link }).2 =
      [(cacheKey ed link, buildTemplate fmt ed link, now1)] := rfl
  rw [h2]
  have hfind : cacheFind (cacheKey ed link)
      [(cacheKey ed link, buildTemplate fmt ed link, now1)] =
      some (buildTemplate fmt ed link, now1) := by
    rw [cacheFind, if_pos rfl]
  simp only [generateEmailTemplate, hfind, cacheFind, if_true]
  rw [if_pos hTTL]

/-- Witness for C8 with a fresh hit one millisecond after the store. -/
theorem C8_template_cache_witness :
    (generateEmailTemplate 1 ((generateEmailTemplate 0 [] fmtNone
        { name := some "Asha", eventDetails := edRoomA, whatsappLink := none }).2)
        fmtNone { name := some "Ravi", eventDetails := edRoomA, whatsappLink := none }).1 =
      (generateEmailTemplate 1 [] fmtNone
          { name := some "Ravi", eventDetails := edRoomA, whatsappLink := none }).1 :=
  C8_template_cache 0 1 fmtNone edRoomA none (some "Asha") (some "Ravi") (by decide)

/-- Claim C9: `sendEmail` always resolves with a result object — success
carries the optional message id, every failure carries `success := false`
with an error message (never a throw, embodied by totality); and the form
controller, on an `ok` response, reports success and navigates to the
confirmation route for every value of `emailSent`, so email-delivery failure
never blocks navigation or rolls back the registration. -/
theorem C9_email_dispatch :
    (∀ env : SendEnv, (sendEmail env).success = true ∨
      ((sendEmail env).success = false ∧ (sendEmail env).error.isSome = true)) ∧
    (∀ (eventId : String) (resp : ServerResponse), resp.ok = true →
      (onSubmitOutcome eventId resp).reportedSuccess = true ∧
      (onSubmitOutcome eventId resp).navigatedTo =
        some { path := "/formsubmitted/techelons", event := eventId,
               token := resp.registrationToken, emailSent := resp.emailSent }) := by
  constructor
  · intro env
    rcases env with ⟨ct, sm⟩
    cases ct with
    | error e => right; simp [sendEmail, emailFailure]
    | ok u =>
      cases sm with
      | error e => right; simp [sendEmail, emailFailure]
      | ok info =>
        left
        rcases info with ⟨mid⟩
        cases mid with
        | none => rfl
        | some m =>
          by_cases hm : listInfix "ethereal".data m.data <;> simp [sendEmail, hm]
  · intro eventId resp hok
    simp [onSubmitOutcome, hok]

/-- Witness for C9 on a successful registration whose e-mail failed to send. -/
theorem C9_email_dispatch_witness :
    (onSubmitOutcome "robo-race"
        { ok := true, registrationToken := "tok123", emailSent := false }).reportedSuccess = true ∧
    (onSubmitOutcome "robo-race"
        { ok := true, registrationToken := "tok123", emailSent := false }).navigatedTo =
      some { path := "/formsubmitted/techelons", event := "robo-race",
             token := "tok123", emailSent := false } :=
  C9_email_dispatch.2 "robo-race"
    { ok := true, registrationToken := "tok123", emailSent := false } rfl

/-- Claim C10: on every pathname other than the two protected ones the
middleware passes the request through unconditionally — the result is
`NextResponse.next()` for every value of the token parameter, so the gate's
only observable effect is on the two protected paths. -/
theorem C10_frame_passthrough (now : Int) (path : String) (token : Option String)
    (h1 : path ≠ "/formsubmitted/workshop") (h2 : path ≠ "/formsubmitted/techelons") :
    middleware now { pathname := path, token := token } = .next := by
  have hp : isProtectedPath path = false := by
    simp [isProtectedPath, h1, h2]
  simp [middleware, hp]

/-- Witness for C10 on the home route with a token present. -/
theorem C10_frame_passthrough_witness :
    middleware 0 { pathname := "/", token := some "anything" } = .next :=
  C10_frame_passthrough 0 "/" (some "anything") (by decide) (by decide)
